import Mathlib

set_option linter.unusedVariables false

/-!
Shallow embedding of the entity-emailer filing-notification processor
(`src/queue_services/entity-emailer/src/entity_emailer/email_processors/filing_notification.py`)
together with claim-side definitions written from the specification, and the
theorems settling the claims about that module.

External effects (HTTP fetches, logging, monitoring alerts) are made explicit:
collaborator responses are inputs, and the log / alert / request traffic is
returned as part of the result.  Python runtime errors (`KeyError`,
`UnboundLocalError`, `FileNotFoundError`, `IndexError`) are modelled with an
`Except` error type.
-/

namespace FilingNotify

/-- An HTTP response from a collaborator service: status code plus body bytes. -/
structure HttpResp where
  status_code : Nat
  content : List Nat
deriving DecidableEq

/-- `http.HTTPStatus.OK`. -/
def HTTPStatus.OK : Nat := 200

/-- `http.HTTPStatus.CREATED`. -/
def HTTPStatus.CREATED : Nat := 201

instance instDecidableEqExcept {ε α : Type} [DecidableEq ε] [DecidableEq α] :
    DecidableEq (Except ε α) := fun x y =>
  match x, y with
  | Except.ok a, Except.ok b =>
      if h : a = b then isTrue (by rw [h])
      else isFalse (fun he => h (Except.ok.inj he))
  | Except.ok _, Except.error _ => isFalse (fun he => Except.noConfusion he)
  | Except.error _, Except.ok _ => isFalse (fun he => Except.noConfusion he)
  | Except.error e, Except.error f =>
      if h : e = f then isTrue (by rw [h])
      else isFalse (fun he => h (Except.error.inj he))

/-- The RFC 4648 base64 alphabet, as used by Python's `base64.b64encode`. -/
def base64Alphabet : List Char :=
  "ABCDEFGHIJKLMNOPQRSTUVWXYZabcdefghijklmnopqrstuvwxyz0123456789+/".data

/-- The base64 digit for a 6-bit group. -/
def b64Char (n : Nat) : Char := base64Alphabet.getD n 'A'

/-- `base64.b64encode` on a byte list, producing the padded character stream. -/
def b64encodeChars : List Nat → List Char
  | [] => []
  | [a] => [b64Char (a / 4 % 64), b64Char (a % 4 * 16), '=', '=']
  | [a, b] => [b64Char (a / 4 % 64), b64Char (a % 4 * 16 + b / 16 % 16),
               b64Char (b % 16 * 4), '=']
  | a :: b :: c :: rest =>
      b64Char (a / 4 % 64) :: b64Char (a % 4 * 16 + b / 16 % 16) ::
      b64Char (b % 16 * 4 + c / 64 % 4) :: b64Char (c % 64) :: b64encodeChars rest

/-- `base64.b64encode(content).decode('utf-8')`. -/
def base64Encode (bs : List Nat) : String := String.mk (b64encodeChars bs)

/-- One step of `re.findall('[a-zA-Z][^A-Z]*', s)`: `cur` is the reversed
character accumulator of the match currently being consumed (`none` while
scanning for the next match start).  A match starts at an ASCII letter and
greedily consumes every following character that is not an ASCII uppercase
letter. -/
def findallCamelGo : Option (List Char) → List Char → List (List Char)
  | none, [] => []
  | some m, [] => [m.reverse]
  | none, d :: rest =>
      if d.isAlpha then findallCamelGo (some [d]) rest
      else findallCamelGo none rest
  | some m, d :: rest =>
      if d.isUpper then m.reverse :: findallCamelGo (some [d]) rest
      else findallCamelGo (some (d :: m)) rest

/-- `re.findall('[a-zA-Z][^A-Z]*', s)` over the characters of `s`. -/
def findallCamel (l : List Char) : List (List Char) := findallCamelGo none l

/-- Python's `sep.join(pieces)` at the character-list level. -/
def joinWith (sep : List Char) : List (List Char) → List Char
  | [] => []
  | [x] => x
  | x :: y :: rest => x ++ sep ++ joinWith sep (y :: rest)

/-- `filing_type[0].upper() + ' '.join(re.findall('[a-zA-Z][^A-Z]*', filing_type[1:]))`
(lines 59-60 and 154 of the source).  Python raises `IndexError` on the empty
string; that case is unreachable for the filing-type tags considered here. -/
def filingName (ft : String) : String :=
  match ft.data with
  | [] => ""
  | c :: rest => String.mk (c.toUpper :: joinWith [' '] (findallCamel rest))

/-- A business snapshot as consumed by the processor: `identifier` and the
`legalName` entry of the business dict (`none` models an absent key). -/
structure Business where
  identifier : String
  legalName : Option String
deriving DecidableEq

/-- The filing record fields the processor reads.  `nameRequestLegalName`
models the `legalName` entry of
`filing_json['filing']['incorporationApplication']['nameRequest']` (`none`
models an absent key; the surrounding path is only accessed for
incorporation-application filings and is assumed present there).
`json_filing` models the keys of `(filing.json)['filing']` mapped to opaque
serialized sub-objects, and `jsonBusinessIdentifier` the `identifier` entry of
`(filing.json)['filing']['business']`. -/
structure FilingRec where
  id : Nat
  filing_type : String
  nameRequestLegalName : Option String
  payment_token : String
  json_filing : List (String × String)
  jsonBusinessIdentifier : Option String
deriving DecidableEq

namespace Filing
namespace Status

/-- Modelled from the spec: `Filing.Status.PAID.value` comes from the
legal-api `Filing` model, which is not under src/; §6 of the spec enumerates
the triggering statuses as `paid` and `completed`, delivered to the emailer as
the request's "option" string. -/
def PAID : String := "PAID"

/-- Modelled from the spec: `Filing.Status.COMPLETED.value`, see `PAID`. -/
def COMPLETED : String := "COMPLETED"

end Status
end Filing

/-- One attachment dict of the output message. -/
structure Attachment where
  fileName : String
  fileBytes : String
  fileUrl : String
  attachOrder : String
deriving DecidableEq

/-- The JSON body posted to the pay-api receipts endpoint (lines 76-83). -/
structure ReceiptRequest where
  corpName : Option String
  filingDateTime : String
deriving DecidableEq

/-- The observable result of `_get_pdfs`: the attachment list it returns plus
the side traffic it generates (log lines, monitoring alerts with their
severity, and receipt requests posted to the pay-api). -/
structure PdfsOut where
  pdfs : List Attachment
  logs : List String
  alerts : List (String × String)
  receiptRequests : List ReceiptRequest
deriving DecidableEq

/-- `logger.error('Failed to get pdf for filing: %s', filing.id)`. -/
def filingPdfFailLog (i : Nat) : String := "Failed to get pdf for filing: " ++ toString i

/-- `capture_message` text for a failed filing-pdf fetch (line 56). -/
def filingPdfFailAlert (i : Nat) : String :=
  "Email Queue: filing id=" ++ toString i ++ ", error=pdf generation"

/-- `logger.error('Failed to get receipt pdf for filing: %s', filing.id)`. -/
def receiptFailLog (i : Nat) : String :=
  "Failed to get receipt pdf for filing: " ++ toString i

/-- `capture_message` text for a failed receipt fetch (line 86). -/
def receiptFailAlert (i : Nat) : String :=
  "Email Queue: filing id=" ++ toString i ++ ", error=receipt generation"

/-- `logger.error('Failed to get noa pdf for filing: %s', filing.id)`. -/
def noaFailLog (i : Nat) : String := "Failed to get noa pdf for filing: " ++ toString i

/-- `capture_message` text for a failed notice-of-articles fetch (line 106). -/
def noaFailAlert (i : Nat) : String :=
  "Email Queue: filing id=" ++ toString i ++ ", error=noa generation"

/-- `logger.error('Failed to get certificate pdf for filing: %s', filing.id)`. -/
def certFailLog (i : Nat) : String :=
  "Failed to get certificate pdf for filing: " ++ toString i

/-- `capture_message` text for a failed certificate fetch (line 127). -/
def certFailAlert (i : Nat) : String :=
  "Email Queue: filing id=" ++ toString i ++ ", error=certificate generation"

/-- `corp_name` as computed at lines 70-74: the name-request legal name with
default `'Numbered Company'` for incorporation applications, otherwise
`business.get('legalName')` (which is `None` when absent). -/
def corpNameOf (filing : FilingRec) (business : Business) : Option String :=
  if filing.filing_type = "incorporationApplication" then
    some (filing.nameRequestLegalName.getD "Numbered Company")
  else
    business.legalName

/-- The fixed collaborator responses available to one `_get_pdfs` run: the
primary filing-document fetch, the receipt request, and the noa / certificate
variants. -/
structure Net where
  filingPdfResp : HttpResp
  receiptResp : HttpResp
  noaResp : HttpResp
  certificateResp : HttpResp
deriving DecidableEq

/-- `_get_pdfs` (lines 40-139): the status-keyed attachment state machine.
Each fetch is checked against its expected status code; a failing fetch
appends a log line and an `'error'`-severity alert and appends no attachment,
a succeeding fetch appends its attachment dict with its fixed file name and
attach order. -/
def _get_pdfs (status : String) (token : String) (business : Business)
    (filing : FilingRec) (filing_date_time : String) (net : Net) : PdfsOut :=
  let out : PdfsOut := { pdfs := [], logs := [], alerts := [], receiptRequests := [] }
  let out :=
    if status = Filing.Status.PAID then
      -- add filing pdf
      let out :=
        if net.filingPdfResp.status_code ≠ HTTPStatus.OK then
          { out with
            logs := out.logs ++ [filingPdfFailLog filing.id],
            alerts := out.alerts ++ [(filingPdfFailAlert filing.id, "error")] }
        else
          { out with pdfs := out.pdfs ++ [{
              fileName := "Notice of " ++ filingName filing.filing_type ++ ".pdf",
              fileBytes := base64Encode net.filingPdfResp.content,
              fileUrl := "",
              attachOrder := "1" }] }
      -- add receipt pdf
      let corp_name := corpNameOf filing business
      let out : PdfsOut := { out with receiptRequests := out.receiptRequests ++
        [{ corpName := corp_name, filingDateTime := filing_date_time }] }
      if net.receiptResp.status_code ≠ HTTPStatus.CREATED then
        { out with
          logs := out.logs ++ [receiptFailLog filing.id],
          alerts := out.alerts ++ [(receiptFailAlert filing.id, "error")] }
      else
        { out with pdfs := out.pdfs ++ [{
            fileName := "Receipt.pdf",
            fileBytes := base64Encode net.receiptResp.content,
            fileUrl := "",
            attachOrder := "2" }] }
    else out
  if status = Filing.Status.COMPLETED then
    -- add notice of articles
    let out :=
      if net.noaResp.status_code ≠ HTTPStatus.OK then
        { out with
          logs := out.logs ++ [noaFailLog filing.id],
          alerts := out.alerts ++ [(noaFailAlert filing.id, "error")] }
      else
        { out with pdfs := out.pdfs ++ [{
            fileName := "Notice of Articles.pdf",
            fileBytes := base64Encode net.noaResp.content,
            fileUrl := "",
            attachOrder := "1" }] }
    if filing.filing_type = "incorporationApplication" then
      -- add certificate
      if net.certificateResp.status_code ≠ HTTPStatus.OK then
        { out with
          logs := out.logs ++ [certFailLog filing.id],
          alerts := out.alerts ++ [(certFailAlert filing.id, "error")] }
      else
        { out with pdfs := out.pdfs ++ [{
            fileName := "Incorporation Certificate.pdf",
            fileBytes := base64Encode net.certificateResp.content,
            fileUrl := "",
            attachOrder := "2" }] }
    else out
  else out

/-- Python runtime errors the processor can raise. -/
inductive PyErr where
  | keyError (key : String)
  | unboundLocal (name : String)
  | indexError
  | fileNotFound (path : String)
deriving DecidableEq

/-- `FILING_TYPE_CONVERTER` (lines 32-37). -/
def FILING_TYPE_CONVERTER : List (String × String) :=
  [("incorporationApplication", "IA"),
   ("annualReport", "AR"),
   ("changeOfDirectors", "COD"),
   ("changeOfAddress", "COA")]

/-- Lookup in a Python dict modelled as an association list. -/
def dictLookup (l : List (String × String)) (k : String) : Option String :=
  (l.find? (fun p => p.1 = k)).map (fun p => p.2)

/-- `FILING_TYPE_CONVERTER[filing_type]`, `none` modelling the `KeyError` case. -/
def converterLookup (ft : String) : Option String := dictLookup FILING_TYPE_CONVERTER ft

/-- Whether the first list is an initial segment of the second. -/
def leadsList : List Char → List Char → Bool
  | [], _ => true
  | _ :: _, [] => false
  | a :: as, b :: bs => a = b && leadsList as bs

/-- Whether `needle` occurs as a contiguous run inside `hay`. -/
def containsSub (needle : List Char) : List Char → Bool
  | [] => needle.isEmpty
  | c :: rest => leadsList needle (c :: rest) || containsSub needle rest

/-- Python's `needle in hay` substring test. -/
def strContains (needle hay : String) : Bool := containsSub needle.data hay.data

/-- `[x for x in ['Address', 'Director'] if x in filing_type][0]` (line 179);
`none` models the `IndexError` raised when neither word occurs. -/
def addressDirector (filing_type : String) : Option String :=
  (["Address", "Director"].filter (fun x => strContains x filing_type)).head?

/-- The subject assignment of lines 175-188: `some s` when one of the nested
branches assigns `subject = s`, `.ok none` when no branch assigns the local at
all, and `.error .indexError` for the (unreachable under the branch guard)
empty tie-break list. -/
def composeBaseSubject (status filing_type : String) : Except PyErr (Option String) :=
  if status = Filing.Status.PAID then
    if filing_type = "incorporationApplication" then
      Except.ok (some "Confirmation of Filing from the Business Registry")
    else if filing_type = "changeOfAddress" ∨ filing_type = "changeOfDirectors" then
      match addressDirector filing_type with
      | some w => Except.ok (some ("Confirmation of " ++ w ++ " Change"))
      | none => Except.error PyErr.indexError
    else if filing_type = "annualReport" then
      Except.ok (some "Confirmation of Annual Report")
    else Except.ok none
  else if status = Filing.Status.COMPLETED then
    if filing_type = "incorporationApplication" then
      Except.ok (some "Incorporation Documents from the Business Registry")
    else if filing_type = "changeOfAddress" ∨ filing_type = "changeOfDirectors" then
      Except.ok (some "Notice of Articles")
    else Except.ok none
  else Except.ok none

/-- The legal-name resolution of lines 193-197: the name-request legal name
for incorporation applications, the business legal name otherwise. -/
def resolvedLegalName (filing : FilingRec) (business : Business) : Option String :=
  if filing.filing_type = "incorporationApplication" then
    filing.nameRequestLegalName
  else
    business.legalName

/-- `f'{legal_name} - {subject}' if legal_name else subject` (line 199), with
Python truthiness: `None` and the empty string leave the subject unprefixed. -/
def prefixedSubject (legal_name : Option String) (subject : String) : String :=
  match legal_name with
  | some l => if l = "" then subject else l ++ " - " ++ subject
  | none => subject

/-- Lines 175-199: base-subject assignment, the `if not subject:` fallback
check (which raises `UnboundLocalError` when no branch assigned the local),
and legal-name prefixing. -/
def finalSubject (filing : FilingRec) (business : Business)
    (status filing_type : String) : Except PyErr String :=
  match composeBaseSubject status filing_type with
  | Except.error e => Except.error e
  | Except.ok none => Except.error (PyErr.unboundLocal "subject")
  | Except.ok (some s) =>
      let subject := if s = "" then "Notification from the BC Business Registry" else s
      Except.ok (prefixedSubject (resolvedLegalName filing business) subject)

/-- Modelled from the spec: `substitute_template_parts` (§4.2 partial
substitution) is repository code that is not under src/; it is modelled as a
deterministic pure pass over the template text. -/
def substitute_template_parts (template : String) : String := template

/-- Modelled from the spec: the Jinja2 `Template(...).render(...)` call (§4.2
VariableBinder) is external library code; it is modelled as a deterministic
pure function of the template text and the bound context values. -/
def renderTemplate (template : String) (ctx : List (String × String)) : String :=
  template ++ (ctx.map (fun p => "<" ++ p.1 ++ "=" ++ p.2 ++ ">")).foldl (fun a b => a ++ b) ""

/-- `email_info`: the notification request. -/
structure EmailInfo where
  type : String
  option : String
  filingId : Nat
deriving DecidableEq

/-- Process-wide configuration (`current_app.config`). -/
structure Config where
  template_path : String
  legal_api_url : String
  pay_api_url : String
  dashboard_url : String
deriving DecidableEq

/-- `content` of the returned email dict. -/
structure OutContent where
  subject : String
  body : String
  attachments : List Attachment
deriving DecidableEq

/-- The email dict returned by `process` (lines 201-209). -/
structure OutboundMessage where
  recipients : List String
  requestBy : String
  content : OutContent
deriving DecidableEq

/-- The external data one `process` run consumes: the stored templates
(`Path(...).read_text()`), the `get_filing_info` collaborator's response
(filing, business and the two rendered timestamps), the `get_recipients`
collaborator's response, and the document/payment service responses. -/
structure Env where
  templates : List (String × String)
  filing : FilingRec
  business : Business
  leg_tmz_filing_date : String
  leg_tmz_effective_date : String
  recipients : List String
  net : Net
deriving DecidableEq

/-- The network-independent stages of `process` (lines 142-166 and 175-199):
template resolution, variable binding and subject composition, yielding the
(subject, rendered body) pair.  Python runtime errors are surfaced as
`Except.error`. -/
def processCore (cfg : Config) (templates : List (String × String))
    (filing : FilingRec) (business : Business)
    (leg_tmz_filing_date leg_tmz_effective_date : String)
    (email_info : EmailInfo) : Except PyErr (String × String) :=
  let filing_type := email_info.type
  let status := email_info.option
  -- lines 148-150: FILING_TYPE_CONVERTER[filing_type] raises KeyError for an
  -- unmapped type; Path(...).read_text() fails when the template is missing
  match converterLookup filing_type with
  | none => Except.error (PyErr.keyError filing_type)
  | some code =>
    let path := cfg.template_path ++ "/BC-" ++ code ++ "-" ++ status ++ ".html"
    match dictLookup templates path with
    | none => Except.error (PyErr.fileNotFound path)
    | some template =>
      let filled_template := substitute_template_parts template
      let filing_name := filingName filing.filing_type
      -- lines 157-166: render the template against the filing context
      match dictLookup filing.json_filing filing_type with
      | none => Except.error (PyErr.keyError filing_type)
      | some filing_section =>
        match dictLookup filing.json_filing "header" with
        | none => Except.error (PyErr.keyError "header")
        | some header_section =>
          match dictLookup filing.json_filing "business" with
          | none => Except.error (PyErr.keyError "business")
          | some _business_section =>
            let html_out := renderTemplate filled_template
              [("business", business.identifier ++ "|" ++ business.legalName.getD ""),
               ("filing", filing_section),
               ("header", header_section),
               ("filing_date_time", leg_tmz_filing_date),
               ("effective_date_time", leg_tmz_effective_date),
               ("entity_dashboard_url",
                 cfg.dashboard_url ++ filing.jsonBusinessIdentifier.getD ""),
               ("email_header", filing_name.toUpper)]
            -- lines 175-199: subject (the UnboundLocalError of line 190
            -- surfaces here; the attachment fetches of line 169 raise
            -- nothing, so their placement in `process` below is observably
            -- equivalent to the source order)
            match finalSubject filing business status filing_type with
            | Except.error e => Except.error e
            | Except.ok subject => Except.ok (subject, html_out)

/-- `process` (lines 142-209): the core stages above plus attachment assembly
(line 169), recipient resolution (line 172) and final packaging
(lines 201-209). -/
def process (cfg : Config) (env : Env) (email_info : EmailInfo) (token : String) :
    Except PyErr OutboundMessage :=
  match processCore cfg env.templates env.filing env.business
      env.leg_tmz_filing_date env.leg_tmz_effective_date email_info with
  | Except.error e => Except.error e
  | Except.ok (subject, html_out) =>
    Except.ok
      { recipients := env.recipients,
        requestBy := "BCRegistries@gov.bc.ca",
        content :=
          { subject := subject,
            body := html_out,
            attachments := (_get_pdfs email_info.option token env.business env.filing
              env.leg_tmz_filing_date env.net).pdfs } }

/-- Whether an `Except` value is a success. -/
def exceptIsOk {ε α : Type} : Except ε α → Bool
  | Except.ok _ => true
  | Except.error _ => false

/-- Replace the collaborator document/payment responses of an environment. -/
def envWithNet (env : Env) (net : Net) : Env := { env with net := net }

/-! ### Claim-side definitions, written from the specification -/

/-- The §4.4 rule table of the spec: base subject per supported
(status, filingType) pair, `none` for unmapped combinations. -/
def specBaseSubject (status filingType : String) : Option String :=
  if status = Filing.Status.PAID then
    if filingType = "incorporationApplication" then
      some "Confirmation of Filing from the Business Registry"
    else if filingType = "changeOfAddress" then
      some "Confirmation of Address Change"
    else if filingType = "changeOfDirectors" then
      some "Confirmation of Director Change"
    else if filingType = "annualReport" then
      some "Confirmation of Annual Report"
    else none
  else if status = Filing.Status.COMPLETED then
    if filingType = "incorporationApplication" then
      some "Incorporation Documents from the Business Registry"
    else if filingType = "changeOfAddress" then
      some "Notice of Articles"
    else if filingType = "changeOfDirectors" then
      some "Notice of Articles"
    else none
  else none

/-- Every base subject the processor can assign, including the defensive
fallback. -/
def allBaseSubjects : List String :=
  ["Confirmation of Filing from the Business Registry",
   "Confirmation of Address Change",
   "Confirmation of Director Change",
   "Confirmation of Annual Report",
   "Incorporation Documents from the Business Registry",
   "Notice of Articles",
   "Notification from the BC Business Registry"]

/-- The spec's per-character expansion behind the human-readable name
derivation: a space is inserted before every uppercase letter. -/
def charSpec (l : List Char) : List Char :=
  (l.map (fun d => if d.isUpper then [' ', d] else [d])).flatten

/-- The spec's human-readable name derivation (§4.2): capitalize the first
letter and insert a space before every subsequent internal uppercase letter. -/
def specHumanName (s : String) : String :=
  match s.data with
  | [] => ""
  | c :: rest => String.mk (c.toUpper :: charSpec rest)

/-- A camelCase filing-type tag: nonempty, all ASCII letters, lowercase
first letter. -/
def isCamelCase (s : String) : Bool :=
  match s.data with
  | [] => false
  | c :: _ => c.isLower && s.data.all Char.isAlpha

/-- Whether the second character of the tag (if any) is not an uppercase
letter. -/
def secondNotUpper (s : String) : Bool :=
  match s.data with
  | _ :: d :: _ => !d.isUpper
  | _ => true

/-! ### Helper lemmas -/

theorem findallCamelGo_some_ne_nil (m : List Char) (l : List Char) :
    findallCamelGo (some m) l ≠ [] := by
  induction l generalizing m with
  | nil => simp [findallCamelGo]
  | cons d t ih =>
      by_cases hd : d.isUpper
      · simp [findallCamelGo, hd]
      · simp [findallCamelGo, hd]
        exact ih (d :: m)

theorem joinWith_cons_ne (sep : List Char) (x : List Char) (l : List (List Char))
    (h : l ≠ []) : joinWith sep (x :: l) = x ++ sep ++ joinWith sep l := by
  cases l with
  | nil => exact absurd rfl h
  | cons y rest => rfl

theorem charSpec_cons (d : Char) (t : List Char) :
    charSpec (d :: t) = (if d.isUpper then [' ', d] else [d]) ++ charSpec t := by
  simp [charSpec]

theorem joinWith_findallCamelGo_some (t : List Char) (m : List Char) :
    joinWith [' '] (findallCamelGo (some m) t) = m.reverse ++ charSpec t := by
  induction t generalizing m with
  | nil => simp [findallCamelGo, joinWith, charSpec]
  | cons d t ih =>
      by_cases hd : d.isUpper
      · rw [show findallCamelGo (some m) (d :: t) = m.reverse :: findallCamelGo (some [d]) t
              from by simp [findallCamelGo, hd]]
        rw [joinWith_cons_ne _ _ _ (findallCamelGo_some_ne_nil [d] t), ih [d],
            charSpec_cons, if_pos hd]
        simp
      · rw [show findallCamelGo (some m) (d :: t) = findallCamelGo (some (d :: m)) t
              from by simp [findallCamelGo, hd]]
        rw [ih (d :: m), charSpec_cons, if_neg hd]
        simp

theorem str_append_left_ne (p a b : String) (h : a ≠ b) : p ++ a ≠ p ++ b := by
  intro he
  apply h
  apply String.ext
  have hd := congrArg String.data he
  rw [String.data_append, String.data_append] at hd
  exact List.append_cancel_left hd

theorem str_append_right_ne (a b t : String) (h : a ≠ b) : a ++ t ≠ b ++ t := by
  intro he
  apply h
  apply String.ext
  have hd := congrArg String.data he
  rw [String.data_append, String.data_append] at hd
  exact List.append_cancel_right hd

theorem filingPdfFailLog_ne_receiptFailLog (i j : Nat) :
    filingPdfFailLog i ≠ receiptFailLog j := by
  unfold filingPdfFailLog receiptFailLog
  rw [show "Failed to get pdf for filing: " = "Failed to get " ++ "pdf for filing: "
        from rfl,
      show "Failed to get receipt pdf for filing: " =
        "Failed to get " ++ "receipt pdf for filing: " from rfl,
      String.append_assoc, String.append_assoc]
  apply str_append_left_ne
  intro he
  have hd := congrArg String.data he
  rw [String.data_append, String.data_append] at hd
  have h2 : (some 'p' : Option Char) = some 'r' := congrArg List.head? hd
  exact absurd h2 (by decide)

theorem filingPdfFailAlert_ne_receiptFailAlert (i j : Nat) (hij : i = j) :
    filingPdfFailAlert i ≠ receiptFailAlert j := by
  subst hij
  unfold filingPdfFailAlert receiptFailAlert
  apply str_append_left_ne
  intro he
  exact absurd (congrArg String.data he) (by decide)

theorem noaFailLog_ne_certFailLog (i j : Nat) :
    noaFailLog i ≠ certFailLog j := by
  unfold noaFailLog certFailLog
  rw [show "Failed to get noa pdf for filing: " =
        "Failed to get " ++ "noa pdf for filing: " from rfl,
      show "Failed to get certificate pdf for filing: " =
        "Failed to get " ++ "certificate pdf for filing: " from rfl,
      String.append_assoc, String.append_assoc]
  apply str_append_left_ne
  intro he
  have hd := congrArg String.data he
  rw [String.data_append, String.data_append] at hd
  have h2 : (some 'n' : Option Char) = some 'c' := congrArg List.head? hd
  exact absurd h2 (by decide)

theorem noaFailAlert_ne_certFailAlert (i j : Nat) (hij : i = j) :
    noaFailAlert i ≠ certFailAlert j := by
  subst hij
  unfold noaFailAlert certFailAlert
  apply str_append_left_ne
  intro he
  exact absurd (congrArg String.data he) (by decide)

/-- The attachment produced for a successful primary filing-document fetch in
the `paid` state (lines 61-68). -/
def paidFilingAtt (filing : FilingRec) (net : Net) : Attachment :=
  { fileName := "Notice of " ++ filingName filing.filing_type ++ ".pdf",
    fileBytes := base64Encode net.filingPdfResp.content,
    fileUrl := "",
    attachOrder := "1" }

/-- The attachment produced for a successful receipt fetch (lines 88-96). -/
def paidReceiptAtt (net : Net) : Attachment :=
  { fileName := "Receipt.pdf",
    fileBytes := base64Encode net.receiptResp.content,
    fileUrl := "",
    attachOrder := "2" }

/-- The attachment produced for a successful notice-of-articles fetch
(lines 108-116). -/
def noaAtt (net : Net) : Attachment :=
  { fileName := "Notice of Articles.pdf",
    fileBytes := base64Encode net.noaResp.content,
    fileUrl := "",
    attachOrder := "1" }

/-- The attachment produced for a successful certificate fetch
(lines 128-137). -/
def certAtt (net : Net) : Attachment :=
  { fileName := "Incorporation Certificate.pdf",
    fileBytes := base64Encode net.certificateResp.content,
    fileUrl := "",
    attachOrder := "2" }

/-- Full characterisation of `_get_pdfs` in the `paid` state. -/
theorem get_pdfs_paid (token : String) (business : Business) (filing : FilingRec)
    (fdt : String) (net : Net) :
    _get_pdfs Filing.Status.PAID token business filing fdt net =
      { pdfs :=
          (if net.filingPdfResp.status_code = HTTPStatus.OK
           then [paidFilingAtt filing net] else []) ++
          (if net.receiptResp.status_code = HTTPStatus.CREATED
           then [paidReceiptAtt net] else []),
        logs :=
          (if net.filingPdfResp.status_code = HTTPStatus.OK
           then [] else [filingPdfFailLog filing.id]) ++
          (if net.receiptResp.status_code = HTTPStatus.CREATED
           then [] else [receiptFailLog filing.id]),
        alerts :=
          (if net.filingPdfResp.status_code = HTTPStatus.OK
           then [] else [(filingPdfFailAlert filing.id, "error")]) ++
          (if net.receiptResp.status_code = HTTPStatus.CREATED
           then [] else [(receiptFailAlert filing.id, "error")]),
        receiptRequests := [{ corpName := corpNameOf filing business,
                              filingDateTime := fdt }] } := by
  have hne : Filing.Status.PAID ≠ Filing.Status.COMPLETED := by decide
  by_cases h1 : net.filingPdfResp.status_code = HTTPStatus.OK <;>
    by_cases h2 : net.receiptResp.status_code = HTTPStatus.CREATED <;>
    simp [_get_pdfs, h1, h2, hne, paidFilingAtt, paidReceiptAtt]

/-- Full characterisation of `_get_pdfs` in the `completed` state. -/
theorem get_pdfs_completed (token : String) (business : Business) (filing : FilingRec)
    (fdt : String) (net : Net) :
    _get_pdfs Filing.Status.COMPLETED token business filing fdt net =
      { pdfs :=
          (if net.noaResp.status_code = HTTPStatus.OK then [noaAtt net] else []) ++
          (if filing.filing_type = "incorporationApplication" then
             (if net.certificateResp.status_code = HTTPStatus.OK
              then [certAtt net] else [])
           else []),
        logs :=
          (if net.noaResp.status_code = HTTPStatus.OK
           then [] else [noaFailLog filing.id]) ++
          (if filing.filing_type = "incorporationApplication" then
             (if net.certificateResp.status_code = HTTPStatus.OK
              then [] else [certFailLog filing.id])
           else []),
        alerts :=
          (if net.noaResp.status_code = HTTPStatus.OK
           then [] else [(noaFailAlert filing.id, "error")]) ++
          (if filing.filing_type = "incorporationApplication" then
             (if net.certificateResp.status_code = HTTPStatus.OK
              then [] else [(certFailAlert filing.id, "error")])
           else []),
        receiptRequests := [] } := by
  have hne : Filing.Status.COMPLETED ≠ Filing.Status.PAID := by decide
  by_cases h1 : net.noaResp.status_code = HTTPStatus.OK <;>
    by_cases h2 : filing.filing_type = "incorporationApplication" <;>
    by_cases h3 : net.certificateResp.status_code = HTTPStatus.OK <;>
    simp [_get_pdfs, h1, h2, h3, hne, noaAtt, certAtt]

/-- A successful `processCore` run's subject is the one computed by
`finalSubject`. -/
theorem processCore_ok_subject (cfg : Config) (tpls : List (String × String))
    (filing : FilingRec) (business : Business) (d1 d2 : String)
    (email : EmailInfo) (s hout : String)
    (h : processCore cfg tpls filing business d1 d2 email = Except.ok (s, hout)) :
    finalSubject filing business email.option email.type = Except.ok s := by
  simp only [processCore] at h
  split at h
  · exact Except.noConfusion h
  split at h
  · exact Except.noConfusion h
  split at h
  · exact Except.noConfusion h
  split at h
  · exact Except.noConfusion h
  split at h
  · exact Except.noConfusion h
  split at h
  · exact Except.noConfusion h
  next subj heq =>
    rw [heq]
    have h2 := Except.ok.inj h
    exact congrArg (fun p => Except.ok p.1) h2

/-- A successful `process` run's subject is the one computed by
`finalSubject`. -/
theorem process_ok_subject (cfg : Config) (env : Env) (email : EmailInfo)
    (token : String) (m : OutboundMessage)
    (h : process cfg env email token = Except.ok m) :
    finalSubject env.filing env.business email.option email.type =
      Except.ok m.content.subject := by
  unfold process at h
  split at h
  · exact Except.noConfusion h
  next subject html_out hcore =>
    have hm := Except.ok.inj h
    subst hm
    exact processCore_ok_subject _ _ _ _ _ _ _ _ _ hcore

/-- Replacing the document/payment responses changes only the attachment list
of a `process` run: success, subject, body and recipients are untouched, and
an error (if any) is the same error. -/
theorem process_net (cfg : Config) (env : Env) (email : EmailInfo)
    (token : String) (net2 : Net) :
    process cfg (envWithNet env net2) email token =
      match process cfg env email token with
      | Except.error e => Except.error e
      | Except.ok m => Except.ok { m with content := { m.content with attachments :=
          (_get_pdfs email.option token env.business env.filing
            env.leg_tmz_filing_date net2).pdfs } } := by
  unfold process envWithNet
  cases processCore cfg env.templates env.filing env.business
      env.leg_tmz_filing_date env.leg_tmz_effective_date email with
  | error e => rfl
  | ok p => rfl

/-- On every pair of the spec's §4.4 table, the processor's subject
assignment produces exactly the table's (nonempty) base subject. -/
theorem compose_of_spec (st ft base : String)
    (h : specBaseSubject st ft = some base) :
    composeBaseSubject st ft = Except.ok (some base) ∧ base ≠ "" := by
  unfold specBaseSubject at h
  split_ifs at h
  all_goals first
    | exact Option.noConfusion h
    | (have hb := Option.some.inj h
       subst hb
       subst_vars
       decide)

/-- Every base subject the assignment can produce is in `allBaseSubjects`. -/
theorem composeBase_mem (st ft s : String)
    (h : composeBaseSubject st ft = Except.ok (some s)) :
    s ∈ allBaseSubjects := by
  unfold composeBaseSubject at h
  split_ifs at h with h1 h2 h3 h4 h5 h6 h7
  · have hb := Option.some.inj (Except.ok.inj h)
    subst hb; decide
  · rcases h3 with h8 | h8 <;> subst h8
    · rw [show addressDirector "changeOfAddress" = some "Address" from rfl] at h
      have hb := Option.some.inj (Except.ok.inj h)
      subst hb; decide
    · rw [show addressDirector "changeOfDirectors" = some "Director" from rfl] at h
      have hb := Option.some.inj (Except.ok.inj h)
      subst hb; decide
  · have hb := Option.some.inj (Except.ok.inj h)
    subst hb; decide
  · exact Option.noConfusion (Except.ok.inj h)
  · have hb := Option.some.inj (Except.ok.inj h)
    subst hb; decide
  · have hb := Option.some.inj (Except.ok.inj h)
    subst hb; decide
  · exact Option.noConfusion (Except.ok.inj h)
  · exact Option.noConfusion (Except.ok.inj h)

/-! ### Concrete fixtures used by the closed witness theorems -/

/-- A business snapshot fixture. -/
def bizW : Business := { identifier := "BC123", legalName := some "Biz Inc" }

/-- Collaborator responses in which every fetch succeeds. -/
def netOkW : Net :=
  { filingPdfResp := { status_code := 200, content := [1, 2, 3] },
    receiptResp := { status_code := 201, content := [4, 5] },
    noaResp := { status_code := 200, content := [6] },
    certificateResp := { status_code := 200, content := [7] } }

/-- Collaborator responses in which every fetch fails. -/
def netFailW : Net :=
  { filingPdfResp := { status_code := 500, content := [] },
    receiptResp := { status_code := 500, content := [] },
    noaResp := { status_code := 503, content := [] },
    certificateResp := { status_code := 500, content := [] } }

/-- A configuration fixture. -/
def cfgW : Config :=
  { template_path := "tpl", legal_api_url := "L", pay_api_url := "P",
    dashboard_url := "D/" }

/-- An incorporation-application filing with a name-request legal name. -/
def filIAW : FilingRec :=
  { id := 7, filing_type := "incorporationApplication",
    nameRequestLegalName := some "Acme Co", payment_token := "pt",
    json_filing := [("incorporationApplication", "x"), ("header", "h"), ("business", "b")],
    jsonBusinessIdentifier := some "BC123" }

/-- Environment for a paid incorporation application. -/
def envIAW : Env :=
  { templates := [("tpl/BC-IA-PAID.html", "T")],
    filing := filIAW, business := bizW,
    leg_tmz_filing_date := "2020-01-01", leg_tmz_effective_date := "2020-01-02",
    recipients := ["a@b.c"], net := netOkW }

/-- A paid incorporation-application request. -/
def emailIAW : EmailInfo :=
  { type := "incorporationApplication", option := "PAID", filingId := 7 }

/-- An incorporation-application filing whose name request has no legal name. -/
def filIAN : FilingRec :=
  { id := 8, filing_type := "incorporationApplication",
    nameRequestLegalName := none, payment_token := "pt",
    json_filing := [("incorporationApplication", "x"), ("header", "h"), ("business", "b")],
    jsonBusinessIdentifier := some "BC123" }

/-- Environment for a paid incorporation application without a name-request
legal name. -/
def envIAN : Env :=
  { templates := [("tpl/BC-IA-PAID.html", "T")],
    filing := filIAN, business := bizW,
    leg_tmz_filing_date := "2020-01-01", leg_tmz_effective_date := "2020-01-02",
    recipients := ["a@b.c"], net := netOkW }

/-- An annual-report filing fixture. -/
def filARW : FilingRec :=
  { id := 9, filing_type := "annualReport",
    nameRequestLegalName := none, payment_token := "pt",
    json_filing := [("annualReport", "x"), ("header", "h"), ("business", "b")],
    jsonBusinessIdentifier := some "BC123" }

/-- Environment for a completed annual report: the template and all filing
data are present, every fetch succeeds. -/
def envARW : Env :=
  { templates := [("tpl/BC-AR-COMPLETED.html", "U")],
    filing := filARW, business := bizW,
    leg_tmz_filing_date := "2020-01-01", leg_tmz_effective_date := "2020-01-02",
    recipients := ["a@b.c"], net := netOkW }

/-- A completed annual-report request: a (status, filingType) pair outside the
subject rule table. -/
def emailARW : EmailInfo := { type := "annualReport", option := "COMPLETED", filingId := 9 }

/-! ### Claim theorems -/

/-- C1: the claim says every (status, filingType) pair outside the subject
rule table yields the fallback subject "Notification from the BC Business
Registry" rather than failing.  The code instead raises `UnboundLocalError`
at the `if not subject:` check (line 190), because no branch of lines 175-188
assigns the `subject` local for such pairs: here the build for a completed
annual report (template present, filing resolvable, all fetches succeeding)
fails instead of emitting the fallback. -/
theorem C1_unmapped_pair_raises_unbound_local :
    process cfgW envARW emailARW "tok" =
      Except.error (PyErr.unboundLocal "subject") := rfl

/-- C5: every filing type absent from `FILING_TYPE_CONVERTER` makes the build
fail with the unknown-filing-type (`KeyError`) error before any message is
produced. -/
theorem C5_unknown_filing_type_fatal (cfg : Config) (env : Env)
    (email : EmailInfo) (token : String)
    (h : converterLookup email.type = none) :
    process cfg env email token = Except.error (PyErr.keyError email.type) := by
  simp [process, processCore, h]

/-- Witness for C5: the filing type "dissolution" is unmapped and the build
fails with the unknown-filing-type error. -/
theorem C5_witness :
    converterLookup "dissolution" = none ∧
    process cfgW envIAW { type := "dissolution", option := "PAID", filingId := 7 } "tok" =
      Except.error (PyErr.keyError "dissolution") :=
  ⟨rfl, C5_unknown_filing_type_fatal cfgW envIAW
    { type := "dissolution", option := "PAID", filingId := 7 } "tok" rfl⟩

/-- C7: in the paid state the receipt request carries exactly one corpName:
the name-request legal name (default "Numbered Company") for incorporation
applications, and the business legal name for every other filing type. -/
theorem C7_receipt_corp_name (token : String) (business : Business)
    (filing : FilingRec) (fdt : String) (net : Net) :
    (_get_pdfs Filing.Status.PAID token business filing fdt net).receiptRequests =
      [{ corpName :=
           if filing.filing_type = "incorporationApplication"
           then some (filing.nameRequestLegalName.getD "Numbered Company")
           else business.legalName,
         filingDateTime := fdt }] := by
  rw [get_pdfs_paid]
  simp [corpNameOf]

/-- C8: whenever the filing-type tag contains both "Address" and "Director",
the tie-break expression of line 179 does not fail and deterministically
picks "Address", so the filled template is "Confirmation of Address Change". -/
theorem C8_tie_break_deterministic (ft : String)
    (h1 : strContains "Address" ft = true)
    (h2 : strContains "Director" ft = true) :
    addressDirector ft = some "Address" ∧
    (addressDirector ft).map (fun w => "Confirmation of " ++ w ++ " Change") =
      some "Confirmation of Address Change" := by
  have hm : addressDirector ft = some "Address" := by
    simp [addressDirector, List.filter_cons, h1, h2]
  exact ⟨hm, by rw [hm]; rfl⟩

/-- Witness for C8 at a tag containing both words. -/
theorem C8_witness :
    strContains "Address" "changeOfAddressDirector" = true ∧
    strContains "Director" "changeOfAddressDirector" = true ∧
    addressDirector "changeOfAddressDirector" = some "Address" :=
  ⟨by decide, by decide,
   (C8_tie_break_deterministic "changeOfAddressDirector" (by decide) (by decide)).1⟩

/-- C9: the build is deterministic: two invocations with identical inputs and
identical collaborator responses produce identical messages (same recipients,
subject, body, and attachment bytes, names and order). -/
theorem C9_idempotent (cfg cfg2 : Config) (env env2 : Env)
    (email email2 : EmailInfo) (token token2 : String)
    (h1 : cfg = cfg2) (h2 : env = env2) (h3 : email = email2)
    (h4 : token = token2) :
    process cfg env email token = process cfg2 env2 email2 token2 := by
  subst h1; subst h2; subst h3; subst h4; rfl

/-- Witness for C9: two identical concrete invocations agree. -/
theorem C9_witness :
    process cfgW envIAW emailIAW "tok" = process cfgW envIAW emailIAW "tok" :=
  C9_idempotent cfgW cfgW envIAW envIAW emailIAW emailIAW "tok" "tok"
    rfl rfl rfl rfl

/-- C2: on every pair of the §4.4 rule table, a successful build's subject is
exactly the table's base subject, prefixed with "{legalName} - " when a legal
name resolves (incorporation applications use the name-request legal name,
all other types the business legal name) and left exactly the base subject
otherwise. -/
theorem C2_table_subjects (cfg : Config) (env : Env) (email : EmailInfo)
    (token : String) (base : String)
    (hbase : specBaseSubject email.option email.type = some base)
    (hft : env.filing.filing_type = email.type)
    (hok : exceptIsOk (process cfg env email token) = true) :
    (process cfg env email token).map (fun m => m.content.subject) =
      Except.ok (prefixedSubject
        (if email.type = "incorporationApplication"
         then env.filing.nameRequestLegalName else env.business.legalName) base) := by
  cases hp : process cfg env email token with
  | error e =>
      rw [hp] at hok
      exact Bool.noConfusion hok
  | ok m =>
      have hs := process_ok_subject cfg env email token m hp
      obtain ⟨hcomp, hne⟩ := compose_of_spec _ _ _ hbase
      have hfs : finalSubject env.filing env.business email.option email.type =
          Except.ok (prefixedSubject (resolvedLegalName env.filing env.business) base) := by
        unfold finalSubject
        rw [hcomp]
        simp [hne]
      rw [hfs] at hs
      have hsub := Except.ok.inj hs
      show Except.ok m.content.subject = _
      rw [← hsub]
      unfold resolvedLegalName
      rw [hft]

/-- Witness for C2: the paid incorporation application with name-request
legal name "Acme Co" gets the prefixed table subject. -/
theorem C2_witness :
    specBaseSubject "PAID" "incorporationApplication" =
      some "Confirmation of Filing from the Business Registry" ∧
    (process cfgW envIAW emailIAW "tok").map (fun m => m.content.subject) =
      Except.ok "Acme Co - Confirmation of Filing from the Business Registry" := by
  refine ⟨rfl, ?_⟩
  have h := C2_table_subjects cfgW envIAW emailIAW "tok"
    "Confirmation of Filing from the Business Registry" rfl rfl rfl
  exact h

/-- A subject produced by `finalSubject` for an incorporation application
whose name request has no (or an empty) legal name is an unprefixed base
subject. -/
theorem finalSubject_no_prefix (filing : FilingRec) (business : Business)
    (st ft s : String)
    (hft : filing.filing_type = "incorporationApplication")
    (hname : filing.nameRequestLegalName = none ∨ filing.nameRequestLegalName = some "")
    (h : finalSubject filing business st ft = Except.ok s) :
    s ∈ allBaseSubjects := by
  unfold finalSubject at h
  cases hc : composeBaseSubject st ft with
  | error e =>
      rw [hc] at h
      exact Except.noConfusion h
  | ok o =>
      cases o with
      | none =>
          rw [hc] at h
          exact Except.noConfusion h
      | some b =>
          rw [hc] at h
          have hid : resolvedLegalName filing business = filing.nameRequestLegalName := by
            unfold resolvedLegalName
            rw [hft]
            simp
          have hpre : ∀ subj : String,
              prefixedSubject (resolvedLegalName filing business) subj = subj := by
            intro subj
            rw [hid]
            rcases hname with hn | hn <;> rw [hn] <;> simp [prefixedSubject]
          simp only [hpre] at h
          have hsub := Except.ok.inj h
          by_cases hb : b = ""
          · rw [if_pos hb] at hsub
            rw [← hsub]
            decide
          · rw [if_neg hb] at hsub
            rw [← hsub]
            exact composeBase_mem st ft b hc

/-- No base subject (fallback included) contains "Numbered Company". -/
theorem allBaseSubjects_no_numbered :
    ∀ x ∈ allBaseSubjects, strContains "Numbered Company" x = false := by decide

/-- C10: for an incorporation application whose name request has no legal
name, the two legal-name lookups diverge: the receipt request is posted with
corpName "Numbered Company", while a successful build's subject stays an
unprefixed base subject in which "Numbered Company" never appears (an
empty-string legal name likewise leaves the subject unprefixed). -/
theorem C10_divergent_lookups (cfg : Config) (env : Env) (email : EmailInfo)
    (token : String)
    (hft : env.filing.filing_type = "incorporationApplication")
    (hname : env.filing.nameRequestLegalName = none ∨
             env.filing.nameRequestLegalName = some "")
    (hok : exceptIsOk (process cfg env email token) = true) :
    (env.filing.nameRequestLegalName = none →
      (_get_pdfs Filing.Status.PAID token env.business env.filing
          env.leg_tmz_filing_date env.net).receiptRequests =
        [{ corpName := some "Numbered Company",
           filingDateTime := env.leg_tmz_filing_date }]) ∧
    (process cfg env email token).map
        (fun m => strContains "Numbered Company" m.content.subject) =
      Except.ok false ∧
    (∃ b, b ∈ allBaseSubjects ∧
      (process cfg env email token).map (fun m => m.content.subject) = Except.ok b) := by
  cases hp : process cfg env email token with
  | error e =>
      rw [hp] at hok
      exact Bool.noConfusion hok
  | ok m =>
      have hs := process_ok_subject cfg env email token m hp
      have hmem := finalSubject_no_prefix env.filing env.business
        email.option email.type m.content.subject hft hname hs
      refine ⟨?_, ?_, ?_⟩
      · intro hn
        rw [get_pdfs_paid]
        simp [corpNameOf, hft, hn]
      · show Except.ok (strContains "Numbered Company" m.content.subject) = Except.ok false
        rw [allBaseSubjects_no_numbered m.content.subject hmem]
      · exact ⟨m.content.subject, hmem, rfl⟩

/-- Witness for C10: paid incorporation application with no name-request
legal name. -/
theorem C10_witness :
    (_get_pdfs Filing.Status.PAID "tok" bizW filIAN "2020-01-01" netOkW).receiptRequests =
      [{ corpName := some "Numbered Company", filingDateTime := "2020-01-01" }] ∧
    (process cfgW envIAN emailIAW "tok").map
        (fun m => strContains "Numbered Company" m.content.subject) =
      Except.ok false := by
  have h := C10_divergent_lookups cfgW envIAN emailIAW "tok" rfl (Or.inl rfl) rfl
  exact ⟨h.1 rfl, h.2.1⟩

/-- C3: every attachment fetch that returns a non-success status degrades the
build instead of aborting it: the failure is logged with the filing
identifier, exactly one "error"-severity alert for that fetch is captured,
the corresponding attachment slot is omitted, and the other slots — and the
build's success, subject, body and recipients — are exactly what the other
responses dictate. -/
theorem C3_fetch_failures_degrade (token : String) (business : Business)
    (filing : FilingRec) (fdt : String) (net : Net) :
    (net.filingPdfResp.status_code ≠ HTTPStatus.OK →
      (_get_pdfs Filing.Status.PAID token business filing fdt net).logs.count
          (filingPdfFailLog filing.id) = 1 ∧
      (_get_pdfs Filing.Status.PAID token business filing fdt net).alerts.count
          (filingPdfFailAlert filing.id, "error") = 1 ∧
      (_get_pdfs Filing.Status.PAID token business filing fdt net).pdfs =
        (if net.receiptResp.status_code = HTTPStatus.CREATED
         then [paidReceiptAtt net] else [])) ∧
    (net.receiptResp.status_code ≠ HTTPStatus.CREATED →
      (_get_pdfs Filing.Status.PAID token business filing fdt net).logs.count
          (receiptFailLog filing.id) = 1 ∧
      (_get_pdfs Filing.Status.PAID token business filing fdt net).alerts.count
          (receiptFailAlert filing.id, "error") = 1 ∧
      (_get_pdfs Filing.Status.PAID token business filing fdt net).pdfs =
        (if net.filingPdfResp.status_code = HTTPStatus.OK
         then [paidFilingAtt filing net] else [])) ∧
    (net.noaResp.status_code ≠ HTTPStatus.OK →
      (_get_pdfs Filing.Status.COMPLETED token business filing fdt net).logs.count
          (noaFailLog filing.id) = 1 ∧
      (_get_pdfs Filing.Status.COMPLETED token business filing fdt net).alerts.count
          (noaFailAlert filing.id, "error") = 1 ∧
      (_get_pdfs Filing.Status.COMPLETED token business filing fdt net).pdfs =
        (if filing.filing_type = "incorporationApplication" then
           (if net.certificateResp.status_code = HTTPStatus.OK
            then [certAtt net] else [])
         else [])) ∧
    (filing.filing_type = "incorporationApplication" →
     net.certificateResp.status_code ≠ HTTPStatus.OK →
      (_get_pdfs Filing.Status.COMPLETED token business filing fdt net).logs.count
          (certFailLog filing.id) = 1 ∧
      (_get_pdfs Filing.Status.COMPLETED token business filing fdt net).alerts.count
          (certFailAlert filing.id, "error") = 1 ∧
      (_get_pdfs Filing.Status.COMPLETED token business filing fdt net).pdfs =
        (if net.noaResp.status_code = HTTPStatus.OK then [noaAtt net] else [])) ∧
    (∀ (cfg : Config) (env : Env) (email : EmailInfo) (token2 : String) (net2 : Net),
      exceptIsOk (process cfg (envWithNet env net2) email token2) =
        exceptIsOk (process cfg env email token2) ∧
      (process cfg (envWithNet env net2) email token2).map (fun m => m.content.subject) =
        (process cfg env email token2).map (fun m => m.content.subject) ∧
      (process cfg (envWithNet env net2) email token2).map (fun m => m.content.body) =
        (process cfg env email token2).map (fun m => m.content.body) ∧
      (process cfg (envWithNet env net2) email token2).map (fun m => m.recipients) =
        (process cfg env email token2).map (fun m => m.recipients)) := by
  have hlogPR := filingPdfFailLog_ne_receiptFailLog filing.id filing.id
  have halertPR := filingPdfFailAlert_ne_receiptFailAlert filing.id filing.id rfl
  have hlogNC := noaFailLog_ne_certFailLog filing.id filing.id
  have halertNC := noaFailAlert_ne_certFailAlert filing.id filing.id rfl
  refine ⟨?_, ?_, ?_, ?_, ?_⟩
  · intro hf
    rw [get_pdfs_paid]
    by_cases hr : net.receiptResp.status_code = HTTPStatus.CREATED <;>
      simp [hf, hr, List.count_cons, hlogPR, halertPR, Prod.mk.injEq]
  · intro hr
    rw [get_pdfs_paid]
    by_cases hf : net.filingPdfResp.status_code = HTTPStatus.OK <;>
      simp [hf, hr, List.count_cons, hlogPR.symm, (Ne.symm halertPR), Prod.mk.injEq]
  · intro hn
    rw [get_pdfs_completed]
    by_cases hia : filing.filing_type = "incorporationApplication" <;>
      by_cases hc : net.certificateResp.status_code = HTTPStatus.OK <;>
      simp [hn, hia, hc, List.count_cons, hlogNC, halertNC, Prod.mk.injEq]
  · intro hia hc
    rw [get_pdfs_completed]
    by_cases hn : net.noaResp.status_code = HTTPStatus.OK <;>
      simp [hn, hia, hc, List.count_cons, hlogNC.symm, (Ne.symm halertNC), Prod.mk.injEq]
  · intro cfg env email token2 net2
    rw [process_net cfg env email token2 net2]
    cases process cfg env email token2 <;> simp [exceptIsOk, Except.map]

/-- Witness for C3: with every fetch failing, both states log and alert once
per slot and attach nothing. -/
theorem C3_witness :
    (_get_pdfs Filing.Status.PAID "tok" bizW filIAW "2020-01-01" netFailW).logs.count
        (filingPdfFailLog filIAW.id) = 1 ∧
    (_get_pdfs Filing.Status.PAID "tok" bizW filIAW "2020-01-01" netFailW).alerts.count
        (receiptFailAlert filIAW.id, "error") = 1 ∧
    (_get_pdfs Filing.Status.COMPLETED "tok" bizW filIAW "2020-01-01" netFailW).pdfs = [] := by
  have h := C3_fetch_failures_degrade "tok" bizW filIAW "2020-01-01" netFailW
  refine ⟨(h.1 (by decide)).1, (h.2.1 (by decide)).2.1, ?_⟩
  have h3 := (h.2.2.1 (by decide)).2.2
  rw [h3]
  decide

/-- C4: in the paid state with both fetches succeeding, the attachments are
exactly [primary filing document, receipt] with attach orders "1" and "2";
when only the receipt fetch fails, exactly the primary document remains, with
its original attach order — no duplication, reordering or renumbering. -/
theorem C4_attach_order_invariant (token : String) (business : Business)
    (filing : FilingRec) (fdt : String) (net : Net) :
    (net.filingPdfResp.status_code = HTTPStatus.OK →
     net.receiptResp.status_code = HTTPStatus.CREATED →
      (_get_pdfs Filing.Status.PAID token business filing fdt net).pdfs =
        [paidFilingAtt filing net, paidReceiptAtt net] ∧
      (paidFilingAtt filing net).attachOrder = "1" ∧
      (paidReceiptAtt net).attachOrder = "2") ∧
    (net.filingPdfResp.status_code = HTTPStatus.OK →
     net.receiptResp.status_code ≠ HTTPStatus.CREATED →
      (_get_pdfs Filing.Status.PAID token business filing fdt net).pdfs =
        [paidFilingAtt filing net] ∧
      (paidFilingAtt filing net).attachOrder = "1") := by
  constructor
  · intro h1 h2
    rw [get_pdfs_paid]
    simp [h1, h2, paidFilingAtt, paidReceiptAtt]
  · intro h1 h2
    rw [get_pdfs_paid]
    simp [h1, h2, paidFilingAtt]

/-- Witness for C4 at concrete responses. -/
theorem C4_witness :
    (_get_pdfs Filing.Status.PAID "tok" bizW filIAW "2020-01-01" netOkW).pdfs =
      [paidFilingAtt filIAW netOkW, paidReceiptAtt netOkW] ∧
    (paidFilingAtt filIAW netOkW).attachOrder = "1" ∧
    (paidReceiptAtt netOkW).attachOrder = "2" :=
  (C4_attach_order_invariant "tok" bizW filIAW "2020-01-01" netOkW).1
    (by decide) (by decide)

/-- C6 counterexample: the claim's derivation rule ("insert a space before
every subsequent internal uppercase letter") disagrees with the code on the
camelCase tag "aBc", whose second character is an uppercase letter: the code
produces "ABc" while the rule requires "A Bc" (the regex-based join never
inserts a space before an uppercase letter in position 1). -/
theorem C6_counterexample :
    isCamelCase "aBc" = true ∧
    filingName "aBc" = "ABc" ∧
    specHumanName "aBc" = "A Bc" ∧
    filingName "aBc" ≠ specHumanName "aBc" := by
  refine ⟨rfl, rfl, rfl, ?_⟩
  decide

/-- C6 (amended): for every camelCase filing-type tag whose second character
is not uppercase — which includes every tag the processor maps — the code's
human-readable name equals the tag with its first letter capitalized and a
space inserted before every subsequent internal uppercase letter. -/
theorem C6_name_derivation (s : String)
    (h1 : isCamelCase s = true) (h2 : secondNotUpper s = true) :
    filingName s = specHumanName s := by
  unfold filingName specHumanName
  unfold isCamelCase at h1
  unfold secondNotUpper at h2
  cases hs : s.data with
  | nil =>
      rw [hs] at h1
  | cons c rest =>
      rw [hs] at h1 h2
      cases rest with
      | nil => rfl
      | cons d t =>
          have hdu : d.isUpper = false := by
            have h2' : (!d.isUpper) = true := h2
            simpa using h2'
          have hda : d.isAlpha = true := by
            have h1' : (c.isLower && (c :: d :: t).all Char.isAlpha) = true := h1
            simp only [Bool.and_eq_true, List.all_cons] at h1'
            exact h1'.2.2.1
          have hjoin : joinWith [' '] (findallCamel (d :: t)) = charSpec (d :: t) := by
            unfold findallCamel
            rw [show findallCamelGo none (d :: t) = findallCamelGo (some [d]) t
                  from by simp [findallCamelGo, hda]]
            rw [joinWith_findallCamelGo_some]
            rw [charSpec_cons, if_neg (by simp [hdu])]
            rfl
          show String.mk (c.toUpper :: joinWith [' '] (findallCamel (d :: t))) =
               String.mk (c.toUpper :: charSpec (d :: t))
          rw [hjoin]

/-- Witness for the amended C6 at the mapped tag "changeOfDirectors". -/
theorem C6_witness :
    isCamelCase "changeOfDirectors" = true ∧
    secondNotUpper "changeOfDirectors" = true ∧
    filingName "changeOfDirectors" = specHumanName "changeOfDirectors" ∧
    filingName "changeOfDirectors" = "Change Of Directors" :=
  ⟨by decide, by decide,
   C6_name_derivation "changeOfDirectors" (by decide) (by decide),
   by decide⟩

end FilingNotify
